import Mathlib

set_option maxHeartbeats 1000000

noncomputable section

namespace Invest

/-- Compound growth of a capital `principal` over `months` months at the
monthly rate `monthly_rate`; from `compound_growth` in `app.py`. -/
def compound_growth (principal monthly_rate : ℝ) (months : ℕ) : ℝ :=
  principal * (1 + monthly_rate) ^ months

/-- Geometric conversion of an annual rate into a monthly rate; from
`annual_rate2mensual_rate` in `app.py`. -/
def annual_rate2mensual_rate (annual_rate : ℝ) : ℝ :=
  (1 + annual_rate) ^ ((1 : ℝ) / 12) - 1

/-- Truncation of a real number toward zero, as Python's `int()` cast does on
a float. -/
def pyInt (x : ℝ) : ℤ := if 0 ≤ x then ⌊x⌋ else ⌈x⌉

/-- Standard annuity monthly payment for a loan; from `monthly_repayment` in
`app.py`.  `n_months` is `int(years * 12)`, i.e. truncation toward zero. -/
def monthly_repayment (principal annual_interest_rate years : ℝ) : ℝ :=
  let monthly_interest_rate := annual_rate2mensual_rate annual_interest_rate
  let n_months : ℤ := pyInt (years * 12)
  if n_months = 0 then 0
  else if monthly_interest_rate = 0 then principal / (n_months : ℝ)
  else
    let numerator := monthly_interest_rate * (1 + monthly_interest_rate) ^ n_months
    let denominator := (1 + monthly_interest_rate) ^ n_months - 1
    principal * (numerator / denominator)

/-- One phase of a strategy, mirroring the cycle dict built in `app.py`
(`add_cycle` / `update_cycle`).  The whole-year durations are the integer
number inputs of the UI. -/
structure Cycle where
  loan_amount : ℝ
  loan_interest_rate : ℝ
  loan_repayment_years : ℕ
  monthly_contribution : ℝ
  contribution_years : ℕ
  m_repayment : ℝ

/-- Builds a cycle dict from the five user-supplied fields, precomputing the
frozen `m_repayment` field; from `add_cycle` in `app.py`. -/
def add_cycle (loan_amount loan_interest_rate : ℝ) (loan_repayment_years : ℕ)
    (monthly_contribution : ℝ) (contribution_years : ℕ) : Cycle :=
  { loan_amount := loan_amount
    loan_interest_rate := loan_interest_rate
    loan_repayment_years := loan_repayment_years
    monthly_contribution := monthly_contribution
    contribution_years := contribution_years
    m_repayment := monthly_repayment loan_amount loan_interest_rate loan_repayment_years }

/-- One row of the per-year breakdown appended to `annual_details` in
`simulate_multi_cycle_strategy_detailed`. -/
structure YearRecord where
  year_index : ℕ
  age_end : ℕ
  portfolio_before : ℝ
  out_of_pocket_year : ℝ
  portfolio_after : ℝ
  roi_year : ℝ
  delta_year : ℝ
  net_gains_end_of_year : ℝ

/-- The running state of `simulate_multi_cycle_strategy_detailed`: the local
variables of the Python function threaded through its loops. -/
structure SimState where
  total_portfolio : ℝ
  total_external_investment : ℝ
  current_age : ℕ
  ages : List ℕ
  net_gains_annual : List ℝ
  annual_details : List YearRecord

/-- The body of the inner `for _ in range(12)` loop of the simulator: one month
of repayment, contribution and growth acting on the pair
(total_portfolio, out_of_pocket_year). -/
def monthStep (c : Cycle) (m : ℝ) (year_index : ℕ) (s : ℝ × ℝ) : ℝ × ℝ :=
  let oop1 := if year_index < c.loan_repayment_years then s.2 + c.m_repayment else s.2
  let p1 := if year_index < c.contribution_years then s.1 + c.monthly_contribution else s.1
  let oop2 := if year_index < c.contribution_years then oop1 + c.monthly_contribution else oop1
  (compound_growth p1 m 1, oop2)

/-- The body of the `for year_index in range(cycle_length_years)` loop of the
simulator: twelve months followed by the bookkeeping and the appended
`YearRecord`. -/
def yearStep (c : Cycle) (m : ℝ) (year_index : ℕ) (st : SimState) : SimState :=
  let portfolio_before := st.total_portfolio
  let s := (monthStep c m year_index)^[12] (portfolio_before, 0)
  let total_portfolio := s.1
  let out_of_pocket_year := s.2
  let total_external_investment := st.total_external_investment + out_of_pocket_year
  let portfolio_after := total_portfolio
  let roi_year := (portfolio_after - portfolio_before) - out_of_pocket_year
  let net_gains_end_of_year := total_portfolio - total_external_investment
  let current_age := st.current_age + 1
  let ages := st.ages ++ [current_age]
  { total_portfolio := total_portfolio
    total_external_investment := total_external_investment
    current_age := current_age
    ages := ages
    net_gains_annual := st.net_gains_annual ++ [net_gains_end_of_year]
    annual_details := st.annual_details ++ [{
      year_index := ages.length
      age_end := current_age
      portfolio_before := portfolio_before
      out_of_pocket_year := out_of_pocket_year
      portfolio_after := portfolio_after
      roi_year := roi_year
      delta_year := roi_year - out_of_pocket_year
      net_gains_end_of_year := net_gains_end_of_year }] }

/-- Runs the year loop for years `0, 1, ..., n - 1` in order. -/
def runYears (c : Cycle) (m : ℝ) : ℕ → SimState → SimState
  | 0, st => st
  | n + 1, st => yearStep c m n (runYears c m n st)

/-- One iteration of the outer `for cycle in strategy_cycles` loop: the loan
amount is invested immediately, then the year loop runs for
`max(loan_repayment_years, contribution_years)` years. -/
def runCycle (m : ℝ) (st : SimState) (c : Cycle) : SimState :=
  runYears c m (max c.loan_repayment_years c.contribution_years)
    { st with total_portfolio := st.total_portfolio + c.loan_amount }

/-- The initial values of the simulator's local variables. -/
def initState (start_age : ℕ) : SimState :=
  { total_portfolio := 0
    total_external_investment := 0
    current_age := start_age
    ages := []
    net_gains_annual := []
    annual_details := [] }

/-- The detailed multi-cycle simulator; from
`simulate_multi_cycle_strategy_detailed` in `app.py`.  Returns
(ages, net_gains_annual, final_portfolio, final_net_gains, annual_details). -/
def simulate_multi_cycle_strategy_detailed (strategy_cycles : List Cycle)
    (annual_investment_rate : ℝ) (start_age : ℕ) :
    List ℕ × List ℝ × ℝ × ℝ × List YearRecord :=
  let monthly_investment_rate := annual_rate2mensual_rate annual_investment_rate
  let st := strategy_cycles.foldl (runCycle monthly_investment_rate) (initState start_age)
  (st.ages, st.net_gains_annual, st.total_portfolio,
   st.total_portfolio - st.total_external_investment, st.annual_details)

/-- The DCA mirror of one lump-sum cycle, as constructed inside the loop of
`build_dca_cycles_from_lumpsum` in `app.py`. -/
def dcaMirror (c : Cycle) : Cycle :=
  { loan_amount := 0
    loan_interest_rate := 0
    loan_repayment_years := 0
    monthly_contribution := c.m_repayment
    contribution_years := max c.loan_repayment_years c.contribution_years
    m_repayment := 0 }

/-- The DCA mirror derivation; from `build_dca_cycles_from_lumpsum` in
`app.py`: one mirror cycle per source cycle, in order. -/
def build_dca_cycles_from_lumpsum : List Cycle → List Cycle
  | [] => []
  | c :: rest => dcaMirror c :: build_dca_cycles_from_lumpsum rest

/-- Observer: the `annual_details` component of the simulator's output. -/
def simDetails (strategy_cycles : List Cycle) (annual_investment_rate : ℝ)
    (start_age : ℕ) : List YearRecord :=
  (simulate_multi_cycle_strategy_detailed strategy_cycles annual_investment_rate start_age).2.2.2.2

/-- Observer: the `final_portfolio` component of the simulator's output. -/
def simFinalPortfolio (strategy_cycles : List Cycle) (annual_investment_rate : ℝ)
    (start_age : ℕ) : ℝ :=
  (simulate_multi_cycle_strategy_detailed strategy_cycles annual_investment_rate start_age).2.2.1

/-- Observer: the `final_net_gains` component of the simulator's output. -/
def simFinalNetGains (strategy_cycles : List Cycle) (annual_investment_rate : ℝ)
    (start_age : ℕ) : ℝ :=
  (simulate_multi_cycle_strategy_detailed strategy_cycles annual_investment_rate start_age).2.2.2.1

/-- The out-of-pocket money accumulated during year `y` of a cycle: twelve
months of the repayment (while the loan runs) and of the contribution (while
the contribution window runs). -/
def oopYear (c : Cycle) (y : ℕ) : ℝ :=
  12 * ((if y < c.loan_repayment_years then c.m_repayment else 0)
      + (if y < c.contribution_years then c.monthly_contribution else 0))

/-- The effective duration of a cycle in whole years. -/
def cycleLen (c : Cycle) : ℕ := max c.loan_repayment_years c.contribution_years

/-- Total number of simulated years of a strategy. -/
def totLen : List Cycle → ℕ
  | [] => 0
  | c :: rest => cycleLen c + totLen rest

/-- The loan principal injected into the portfolio exactly at global year
boundary `i`: the sum of `loan_amount` over the cycles whose first simulated
year has global (0-based) index `i`, including zero-duration cycles sitting at
that boundary. -/
def injectedAt : List Cycle → ℕ → ℝ
  | [], _ => 0
  | c :: rest, i =>
      (if i = 0 then c.loan_amount else 0) +
      (if cycleLen c ≤ i then injectedAt rest (i - cycleLen c) else 0)

/-- The total out-of-pocket cash a single cycle injects over its whole
duration. -/
def cycleInjected (c : Cycle) : ℝ :=
  12 * (c.loan_repayment_years : ℝ) * c.m_repayment
    + 12 * (c.contribution_years : ℝ) * c.monthly_contribution

/-- Reads a numeric field of the `i`-th record of a record list, with default
0 out of range. -/
def fieldAt (f : YearRecord → ℝ) (l : List YearRecord) (i : ℕ) : ℝ :=
  (l.map f).getD i 0

/-- The additivity property of the net-gains column: each record's cumulative
net gains are the previous record's plus the record's own yearly ROI. -/
def chainNG (l : List YearRecord) : Prop :=
  ∀ i, i + 1 < l.length →
    fieldAt YearRecord.net_gains_end_of_year l (i + 1) =
      fieldAt YearRecord.net_gains_end_of_year l i + fieldAt YearRecord.roi_year l (i + 1)

/- ============================================================ -/
/- Basic lemmas about the month loop.                           -/
/- ============================================================ -/

theorem monthStep_eq (c : Cycle) (m : ℝ) (y : ℕ) (s : ℝ × ℝ) :
    monthStep c m y s =
      ((s.1 + (if y < c.contribution_years then c.monthly_contribution else 0)) * (1 + m),
       s.2 + (if y < c.loan_repayment_years then c.m_repayment else 0)
           + (if y < c.contribution_years then c.monthly_contribution else 0)) := by
  unfold monthStep compound_growth
  split_ifs <;> simp

theorem monthStep_iterate_snd (c : Cycle) (m : ℝ) (y : ℕ) :
    ∀ (j : ℕ) (s : ℝ × ℝ),
      ((monthStep c m y)^[j] s).2 =
        s.2 + j * ((if y < c.loan_repayment_years then c.m_repayment else 0)
                 + (if y < c.contribution_years then c.monthly_contribution else 0)) := by
  intro j
  induction j with
  | zero => intro s; simp
  | succ n ih =>
      intro s
      rw [Function.iterate_succ_apply, ih, monthStep_eq]
      push_cast
      ring

/- ============================================================ -/
/- C7: the empty strategy.                                      -/
/- ============================================================ -/

/-- C7: for an empty Strategy, any annual investment rate and any start age,
the simulation returns empty ages and net-gains sequences, an empty YearRecord
sequence, final_portfolio = 0 and final_net_gains = 0. -/
theorem empty_strategy (a : ℝ) (s : ℕ) :
    simulate_multi_cycle_strategy_detailed [] a s = ([], [], 0, 0, []) := by
  simp [simulate_multi_cycle_strategy_detailed, initState]

/- ============================================================ -/
/- C5: the shape of the DCA mirror derivation.                  -/
/- ============================================================ -/

/-- C5: the DCA mirror derivation emits, for each cycle in order, exactly one
mirror cycle with zero loan fields, `monthly_contribution` equal to the source
cycle's precomputed `m_repayment`, `contribution_years = max(loan_repayment_years,
contribution_years)` and zero repayment; in particular the mirror of the cycle
(100000, 0.06, 20 years, no contribution) contributes
`monthly_repayment 100000 0.06 20` over 20 years with no loan. -/
theorem dca_mirror_shape (cycles : List Cycle) :
    build_dca_cycles_from_lumpsum cycles =
      cycles.map (fun c =>
        { loan_amount := 0
          loan_interest_rate := 0
          loan_repayment_years := 0
          monthly_contribution := c.m_repayment
          contribution_years := max c.loan_repayment_years c.contribution_years
          m_repayment := 0 }) ∧
    build_dca_cycles_from_lumpsum [add_cycle 100000 0.06 20 0 0] =
      [{ loan_amount := 0
         loan_interest_rate := 0
         loan_repayment_years := 0
         monthly_contribution := monthly_repayment 100000 0.06 20
         contribution_years := 20
         m_repayment := 0 }] := by
  constructor
  · induction cycles with
    | nil => rfl
    | cons c rest ih => simp [build_dca_cycles_from_lumpsum, dcaMirror, ih]
  · simp [build_dca_cycles_from_lumpsum, dcaMirror, add_cycle]

/- ============================================================ -/
/- C1: order of operations inside a month.                      -/
/- ============================================================ -/

/-- C1: each of the twelve months of a simulated year updates the state in
this order: the fixed repayment goes to `out_of_pocket_year` only (the
portfolio is untouched) while the loan runs, then the contribution goes to
both `out_of_pocket_year` and the portfolio while the contribution window
runs, then the whole portfolio is multiplied by `1 + m`, so a month's own
contribution also earns that month's growth; the year loop applies this step
twelve times starting from (portfolio, 0). -/
theorem month_and_year_update_order (c : Cycle) (m : ℝ) (y : ℕ) (p oop : ℝ)
    (st : SimState) :
    monthStep c m y (p, oop) =
      ((p + (if y < c.contribution_years then c.monthly_contribution else 0)) * (1 + m),
       oop + (if y < c.loan_repayment_years then c.m_repayment else 0)
           + (if y < c.contribution_years then c.monthly_contribution else 0)) ∧
    (yearStep c m y st).total_portfolio =
      ((monthStep c m y)^[12] (st.total_portfolio, 0)).1 ∧
    ((monthStep c m y)^[12] (st.total_portfolio, 0)).2 =
      12 * ((if y < c.loan_repayment_years then c.m_repayment else 0)
          + (if y < c.contribution_years then c.monthly_contribution else 0)) := by
  refine ⟨monthStep_eq c m y (p, oop), rfl, ?_⟩
  rw [monthStep_iterate_snd]
  norm_num

/- ============================================================ -/
/- C8: monthly rate compounded twelve times gives the annual.   -/
/- ============================================================ -/

/-- C8: for every annual rate `a > -1`, compounding the principal 1 for twelve
months at the converted monthly rate reproduces the annual factor `1 + a`
exactly. -/
theorem annual_monthly_consistency (a : ℝ) (h : -1 < a) :
    compound_growth 1 (annual_rate2mensual_rate a) 12 = 1 + a := by
  have h0 : (0 : ℝ) ≤ 1 + a := by linarith
  unfold compound_growth annual_rate2mensual_rate
  rw [one_mul]
  have h1 : (1 : ℝ) + ((1 + a) ^ ((1 : ℝ) / 12) - 1) = (1 + a) ^ ((1 : ℝ) / 12) := by
    ring
  rw [h1, ← Real.rpow_natCast ((1 + a) ^ ((1 : ℝ) / 12)) 12, ← Real.rpow_mul h0]
  norm_num

/-- Witness for C8 at the concrete rate 0. -/
theorem annual_monthly_consistency_witness :
    (-1 : ℝ) < 0 ∧ compound_growth 1 (annual_rate2mensual_rate 0) 12 = 1 + 0 :=
  ⟨neg_one_lt_zero, annual_monthly_consistency 0 neg_one_lt_zero⟩

/- ============================================================ -/
/- C3: the amortized payment formula.                           -/
/- ============================================================ -/

theorem annual_rate2mensual_rate_zero : annual_rate2mensual_rate 0 = 0 := by
  simp [annual_rate2mensual_rate]

/-- C3 (amended): `monthly_repayment` computes `n = int(Y * 12)` truncated
toward zero (which equals `floor(Y * 12)` whenever `Y ≥ 0`), returns 0 when
`n = 0` (in particular for `Y = 0`), returns `P / n` when the converted
monthly rate `(1+r)^(1/12) - 1` is exactly 0 (the rate conversion does send
`r = 0` to exactly 0), and otherwise returns the annuity formula
`P * [m(1+m)^n] / [(1+m)^n - 1]`. -/
theorem monthly_repayment_formula (P r Y : ℝ) :
    monthly_repayment P r 0 = 0 ∧
    (0 ≤ Y → pyInt (Y * 12) = ⌊Y * 12⌋) ∧
    (pyInt (Y * 12) = 0 → monthly_repayment P r Y = 0) ∧
    (annual_rate2mensual_rate r = 0 → pyInt (Y * 12) ≠ 0 →
        monthly_repayment P r Y = P / ((pyInt (Y * 12) : ℤ) : ℝ)) ∧
    annual_rate2mensual_rate 0 = 0 ∧
    (annual_rate2mensual_rate r ≠ 0 → pyInt (Y * 12) ≠ 0 →
        monthly_repayment P r Y =
          P * ((annual_rate2mensual_rate r *
                (1 + annual_rate2mensual_rate r) ^ (pyInt (Y * 12))) /
               ((1 + annual_rate2mensual_rate r) ^ (pyInt (Y * 12)) - 1))) := by
  refine ⟨?_, ?_, ?_, ?_, annual_rate2mensual_rate_zero, ?_⟩
  · simp [monthly_repayment, pyInt]
  · intro hY
    unfold pyInt
    rw [if_pos (mul_nonneg hY (by norm_num))]
  · intro hn
    simp only [monthly_repayment]
    rw [if_pos hn]
  · intro hm hn
    simp only [monthly_repayment]
    rw [if_neg hn, if_pos hm]
  · intro hm hn
    simp only [monthly_repayment]
    rw [if_neg hn, if_neg hm]

/-- Witness for C3 at the concrete inputs (2, 0, 0) and (1, 0, 1). -/
theorem monthly_repayment_formula_witness :
    monthly_repayment 2 0 0 = 0 ∧
    annual_rate2mensual_rate 0 = 0 ∧
    pyInt ((1 : ℝ) * 12) ≠ 0 ∧
    monthly_repayment 1 0 1 = 1 / ((pyInt ((1 : ℝ) * 12) : ℤ) : ℝ) :=
  ⟨(monthly_repayment_formula 2 0 0).1,
   (monthly_repayment_formula 1 0 1).2.2.2.2.1,
   by simp [pyInt],
   (monthly_repayment_formula 1 0 1).2.2.2.1
     (monthly_repayment_formula 1 0 1).2.2.2.2.1 (by simp [pyInt])⟩

/-- Counterexample to C3 as stated: the claim asserts
`amortized_payment(P, 0, Y) == P / (Y*12)` for every `Y > 0`, but at
`P = 1, Y = 0.55` the code computes `n = int(6.6) = 6` months and returns
`1/6`, not `1/(0.55*12) = 1/6.6`. -/
theorem monthly_repayment_claim_counterexample :
    monthly_repayment 1 0 0.55 = 1 / 6 ∧ ((1 : ℝ) / 6) ≠ 1 / (0.55 * 12) := by
  constructor
  · have hfl : pyInt ((0.55 : ℝ) * 12) = 6 := by
      unfold pyInt
      rw [if_pos (by norm_num), show (0.55 : ℝ) * 12 = 6.6 by norm_num,
        Int.floor_eq_iff]
      norm_num
    simp only [monthly_repayment, annual_rate2mensual_rate_zero, hfl]
    norm_num
  · norm_num

/- ============================================================ -/
/- Access lemmas for record columns.                            -/
/- ============================================================ -/

theorem fieldAt_append_left (f : YearRecord → ℝ) (l l' : List YearRecord) (i : ℕ)
    (h : i < l.length) : fieldAt f (l ++ l') i = fieldAt f l i := by
  unfold fieldAt
  rw [List.map_append]
  exact List.getD_append _ _ _ _ (by simpa using h)

theorem fieldAt_append_right (f : YearRecord → ℝ) (l l' : List YearRecord) (i : ℕ)
    (h : l.length ≤ i) : fieldAt f (l ++ l') i = fieldAt f l' (i - l.length) := by
  unfold fieldAt
  rw [List.map_append, List.getD_append_right _ _ _ _ (by simpa using h), List.length_map]

theorem fieldAt_concat_self (f : YearRecord → ℝ) (l : List YearRecord) (r : YearRecord) :
    fieldAt f (l ++ [r]) l.length = f r := by
  rw [fieldAt_append_right f l [r] l.length le_rfl]
  simp [fieldAt]

/- ============================================================ -/
/- The record appended by one year of simulation.               -/
/- ============================================================ -/

/-- The `YearRecord` appended by `yearStep c m y st`, written out. -/
def yearRec (c : Cycle) (m : ℝ) (y : ℕ) (st : SimState) : YearRecord :=
  let portfolio_before := st.total_portfolio
  let s := (monthStep c m y)^[12] (portfolio_before, 0)
  { year_index := (st.ages ++ [st.current_age + 1]).length
    age_end := st.current_age + 1
    portfolio_before := portfolio_before
    out_of_pocket_year := s.2
    portfolio_after := s.1
    roi_year := (s.1 - portfolio_before) - s.2
    delta_year := ((s.1 - portfolio_before) - s.2) - s.2
    net_gains_end_of_year := s.1 - (st.total_external_investment + s.2) }

theorem yearStep_details (c : Cycle) (m : ℝ) (y : ℕ) (st : SimState) :
    (yearStep c m y st).annual_details = st.annual_details ++ [yearRec c m y st] := rfl

theorem yearStep_portfolio (c : Cycle) (m : ℝ) (y : ℕ) (st : SimState) :
    (yearStep c m y st).total_portfolio =
      ((monthStep c m y)^[12] (st.total_portfolio, 0)).1 := rfl

theorem yearStep_tei (c : Cycle) (m : ℝ) (y : ℕ) (st : SimState) :
    (yearStep c m y st).total_external_investment =
      st.total_external_investment + ((monthStep c m y)^[12] (st.total_portfolio, 0)).2 := rfl

theorem yearRec_pb (c : Cycle) (m : ℝ) (y : ℕ) (st : SimState) :
    (yearRec c m y st).portfolio_before = st.total_portfolio := rfl

theorem yearRec_pa (c : Cycle) (m : ℝ) (y : ℕ) (st : SimState) :
    (yearRec c m y st).portfolio_after =
      ((monthStep c m y)^[12] (st.total_portfolio, 0)).1 := rfl

theorem yearRec_roi (c : Cycle) (m : ℝ) (y : ℕ) (st : SimState) :
    (yearRec c m y st).roi_year =
      (((monthStep c m y)^[12] (st.total_portfolio, 0)).1 - st.total_portfolio)
        - ((monthStep c m y)^[12] (st.total_portfolio, 0)).2 := rfl

theorem yearRec_ng (c : Cycle) (m : ℝ) (y : ℕ) (st : SimState) :
    (yearRec c m y st).net_gains_end_of_year =
      ((monthStep c m y)^[12] (st.total_portfolio, 0)).1
        - (st.total_external_investment
            + ((monthStep c m y)^[12] (st.total_portfolio, 0)).2) := rfl

theorem yearRec_oop (c : Cycle) (m : ℝ) (y : ℕ) (st : SimState) :
    (yearRec c m y st).out_of_pocket_year = oopYear c y := by
  show ((monthStep c m y)^[12] (st.total_portfolio, 0)).2 = oopYear c y
  rw [monthStep_iterate_snd]
  unfold oopYear
  push_cast
  ring

/- ============================================================ -/
/- Characterization of the year loop.                           -/
/- ============================================================ -/

theorem runYears_spec (c : Cycle) (m : ℝ) :
    ∀ (n : ℕ) (st : SimState), ∃ D : List YearRecord,
      (runYears c m n st).annual_details = st.annual_details ++ D ∧
      D.length = n ∧
      D.map YearRecord.out_of_pocket_year = (List.range n).map (oopYear c) ∧
      (∀ k, k < n → fieldAt YearRecord.portfolio_before D k =
          (if k = 0 then st.total_portfolio
           else fieldAt YearRecord.portfolio_after D (k - 1))) ∧
      (runYears c m n st).total_portfolio =
        (if n = 0 then st.total_portfolio
         else fieldAt YearRecord.portfolio_after D (n - 1)) ∧
      (runYears c m n st).total_external_investment =
        st.total_external_investment
          + 12 * ((min n c.loan_repayment_years : ℕ) : ℝ) * c.m_repayment
          + 12 * ((min n c.contribution_years : ℕ) : ℝ) * c.monthly_contribution := by
  intro n
  induction n with
  | zero =>
      intro st
      exact ⟨[], by simp [runYears], rfl, by simp, by simp, by simp [runYears],
        by simp [runYears]⟩
  | succ n ih =>
      intro st
      obtain ⟨D, hdet, hlen, hoop, hchain, hport, htei⟩ := ih st
      refine ⟨D ++ [yearRec c m n (runYears c m n st)], ?_, ?_, ?_, ?_, ?_, ?_⟩
      · show (yearStep c m n (runYears c m n st)).annual_details = _
        rw [yearStep_details, hdet, List.append_assoc]
      · simp [hlen]
      · rw [List.map_append, hoop, List.range_succ, List.map_append]
        simp [yearRec_oop]
      · intro k hk
        rcases Nat.lt_or_ge k n with hkn | hkn
        · have hkD : k < D.length := by omega
          rw [fieldAt_append_left _ _ _ _ hkD]
          rcases Nat.eq_zero_or_pos k with rfl | hk0
          · simpa using hchain 0 hkn
          · have hk0' : k ≠ 0 := by omega
            rw [if_neg hk0',
              fieldAt_append_left _ _ _ _ (show k - 1 < D.length by omega)]
            have h := hchain k hkn
            rwa [if_neg hk0'] at h
        · have hk_eq : k = n := by omega
          subst hk_eq
          have h1 := fieldAt_concat_self YearRecord.portfolio_before D
            (yearRec c m k (runYears c m k st))
          rw [hlen] at h1
          rw [h1, yearRec_pb]
          rw [hport]
          rcases Nat.eq_zero_or_pos k with rfl | hk0
          · simp
          · have hk0' : k ≠ 0 := by omega
            rw [if_neg hk0', if_neg hk0',
              fieldAt_append_left _ _ _ _ (show k - 1 < D.length by omega)]
      · show (yearStep c m n (runYears c m n st)).total_portfolio = _
        rw [yearStep_portfolio]
        have h2 := fieldAt_concat_self YearRecord.portfolio_after D
          (yearRec c m n (runYears c m n st))
        rw [hlen] at h2
        rw [if_neg (Nat.succ_ne_zero n), Nat.add_sub_cancel, h2, yearRec_pa]
      · show (yearStep c m n (runYears c m n st)).total_external_investment = _
        rw [yearStep_tei]
        have ho : ((monthStep c m n)^[12] ((runYears c m n st).total_portfolio, 0)).2 =
            oopYear c n := by
          rw [monthStep_iterate_snd]
          unfold oopYear
          push_cast
          ring
        rw [ho, htei]
        unfold oopYear
        by_cases h1 : n < c.loan_repayment_years <;>
          by_cases h2 : n < c.contribution_years
        · rw [min_eq_left (Nat.succ_le_of_lt h1), min_eq_left h1.le,
            min_eq_left (Nat.succ_le_of_lt h2), min_eq_left h2.le,
            if_pos h1, if_pos h2]
          push_cast
          ring
        · rw [min_eq_left (Nat.succ_le_of_lt h1), min_eq_left h1.le,
            min_eq_right (Nat.le_of_not_lt h2),
            min_eq_right (Nat.le_succ_of_le (Nat.le_of_not_lt h2)),
            if_pos h1, if_neg h2]
          push_cast
          ring
        · rw [min_eq_right (Nat.le_of_not_lt h1),
            min_eq_right (Nat.le_succ_of_le (Nat.le_of_not_lt h1)),
            min_eq_left (Nat.succ_le_of_lt h2), min_eq_left h2.le,
            if_neg h1, if_pos h2]
          push_cast
          ring
        · rw [min_eq_right (Nat.le_of_not_lt h1),
            min_eq_right (Nat.le_succ_of_le (Nat.le_of_not_lt h1)),
            min_eq_right (Nat.le_of_not_lt h2),
            min_eq_right (Nat.le_succ_of_le (Nat.le_of_not_lt h2)),
            if_neg h1, if_neg h2]
          ring

/- ============================================================ -/
/- Characterization of one cycle and of the whole fold.         -/
/- ============================================================ -/

theorem runCycle_spec (c : Cycle) (m : ℝ) (st : SimState) :
    ∃ D : List YearRecord,
      (runCycle m st c).annual_details = st.annual_details ++ D ∧
      D.length = cycleLen c ∧
      D.map YearRecord.out_of_pocket_year = (List.range (cycleLen c)).map (oopYear c) ∧
      (∀ k, k < cycleLen c → fieldAt YearRecord.portfolio_before D k =
          (if k = 0 then st.total_portfolio + c.loan_amount
           else fieldAt YearRecord.portfolio_after D (k - 1))) ∧
      (runCycle m st c).total_portfolio =
        (if cycleLen c = 0 then st.total_portfolio + c.loan_amount
         else fieldAt YearRecord.portfolio_after D (cycleLen c - 1)) ∧
      (runCycle m st c).total_external_investment =
        st.total_external_investment + cycleInjected c := by
  obtain ⟨D, h1, h2, h3, h4, h5, h6⟩ := runYears_spec c m (cycleLen c)
    { st with total_portfolio := st.total_portfolio + c.loan_amount }
  refine ⟨D, h1, h2, h3, h4, h5, ?_⟩
  have e1 : c.loan_repayment_years ≤ cycleLen c := le_max_left _ _
  have e2 : c.contribution_years ≤ cycleLen c := le_max_right _ _
  have h6' : (runCycle m st c).total_external_investment =
      st.total_external_investment
        + 12 * ((min (cycleLen c) c.loan_repayment_years : ℕ) : ℝ) * c.m_repayment
        + 12 * ((min (cycleLen c) c.contribution_years : ℕ) : ℝ) * c.monthly_contribution := h6
  rw [min_eq_right e1, min_eq_right e2] at h6'
  rw [h6']
  unfold cycleInjected
  ring

theorem foldl_spec (m : ℝ) :
    ∀ (cycles : List Cycle) (st : SimState),
      ∃ D : List YearRecord,
        (List.foldl (runCycle m) st cycles).annual_details = st.annual_details ++ D ∧
        D.length = totLen cycles ∧
        (∀ k, k < totLen cycles → fieldAt YearRecord.portfolio_before D k =
            (if k = 0 then st.total_portfolio
             else fieldAt YearRecord.portfolio_after D (k - 1)) + injectedAt cycles k) ∧
        (List.foldl (runCycle m) st cycles).total_portfolio =
          (if totLen cycles = 0 then st.total_portfolio
           else fieldAt YearRecord.portfolio_after D (totLen cycles - 1))
            + injectedAt cycles (totLen cycles) ∧
        (List.foldl (runCycle m) st cycles).total_external_investment =
          st.total_external_investment + (cycles.map cycleInjected).sum := by
  intro cycles
  induction cycles with
  | nil =>
      intro st
      exact ⟨[], by simp, rfl, by simp [totLen], by simp [totLen, injectedAt], by simp⟩
  | cons c rest ih =>
      intro st
      obtain ⟨Dc, hc1, hc2, hcO, hc3, hc4, hc5⟩ := runCycle_spec c m st
      obtain ⟨Dr, hr1, hr2, hr3, hr4, hr5⟩ := ih (runCycle m st c)
      have hfold : List.foldl (runCycle m) st (c :: rest) =
          List.foldl (runCycle m) (runCycle m st c) rest := rfl
      have htot : totLen (c :: rest) = cycleLen c + totLen rest := rfl
      refine ⟨Dc ++ Dr, ?_, ?_, ?_, ?_, ?_⟩
      · rw [hfold, hr1, hc1, List.append_assoc]
      · simp [hc2, hr2, totLen]
      · intro k hk
        have hinj : injectedAt (c :: rest) k =
            (if k = 0 then c.loan_amount else 0) +
            (if cycleLen c ≤ k then injectedAt rest (k - cycleLen c) else 0) := rfl
        rw [hinj]
        rw [htot] at hk
        rcases Nat.lt_or_ge k (cycleLen c) with hklt | hkge
        · have hkD : k < Dc.length := by omega
          rw [fieldAt_append_left _ _ _ _ hkD, hc3 k hklt,
            if_neg (by omega : ¬ cycleLen c ≤ k)]
          rcases Nat.eq_zero_or_pos k with rfl | hk0
          · norm_num
          · have hk0' : k ≠ 0 := by omega
            simp only [if_neg hk0']
            rw [fieldAt_append_left _ _ _ _ (show k - 1 < Dc.length by omega)]
            ring
        · have hkD : Dc.length ≤ k := by omega
          rw [fieldAt_append_right _ _ _ _ hkD, hc2, if_pos hkge]
          have hk' : k - cycleLen c < totLen rest := by omega
          rw [hr3 (k - cycleLen c) hk']
          rcases Nat.eq_zero_or_pos k with rfl | hk0
          · have hlc : cycleLen c = 0 := by omega
            rw [hc4, if_pos hlc]
            norm_num
            ring
          · have hk0' : k ≠ 0 := by omega
            simp only [if_neg hk0']
            rcases Nat.eq_zero_or_pos (k - cycleLen c) with hzro | hpos
            · rw [if_pos hzro]
              rcases Nat.eq_zero_or_pos (cycleLen c) with hlc | hlc
              · omega
              · rw [hc4, if_neg (by omega : ¬ cycleLen c = 0)]
                rw [fieldAt_append_left _ _ _ _ (show k - 1 < Dc.length by omega)]
                have hidx : k - 1 = cycleLen c - 1 := by omega
                rw [hidx, hzro]
                ring
            · rw [if_neg (by omega : ¬ (k - cycleLen c = 0))]
              rw [fieldAt_append_right _ _ _ _ (show Dc.length ≤ k - 1 by omega)]
              have hidx : k - 1 - Dc.length = k - cycleLen c - 1 := by omega
              rw [hidx]
              ring
      · rw [hfold, hr4]
        have h2' : cycleLen c ≤ totLen (c :: rest) := by omega
        have hinj : injectedAt (c :: rest) (totLen (c :: rest)) =
            (if totLen (c :: rest) = 0 then c.loan_amount else 0) +
            (if cycleLen c ≤ totLen (c :: rest) then
                injectedAt rest (totLen (c :: rest) - cycleLen c) else 0) := rfl
        rw [hinj, if_pos h2']
        have hsub : totLen (c :: rest) - cycleLen c = totLen rest := by omega
        rw [hsub]
        rcases Nat.eq_zero_or_pos (totLen rest) with htr | htr
        · rw [if_pos htr, htr]
          rcases Nat.eq_zero_or_pos (cycleLen c) with hlc | hlc
          · rw [hc4, if_pos hlc]
            simp only [if_pos (show totLen (c :: rest) = 0 by omega)]
            ring
          · rw [hc4, if_neg (show ¬ cycleLen c = 0 by omega)]
            simp only [if_neg (show ¬ totLen (c :: rest) = 0 by omega)]
            rw [fieldAt_append_left _ _ _ _
              (show totLen (c :: rest) - 1 < Dc.length by omega)]
            have hidx : totLen (c :: rest) - 1 = cycleLen c - 1 := by omega
            rw [hidx]
            ring
        · rw [if_neg (show ¬ totLen rest = 0 by omega)]
          simp only [if_neg (show ¬ totLen (c :: rest) = 0 by omega)]
          rw [fieldAt_append_right _ _ _ _
            (show Dc.length ≤ totLen (c :: rest) - 1 by omega)]
          have hidx : totLen (c :: rest) - 1 - Dc.length = totLen rest - 1 := by omega
          rw [hidx]
          ring
      · rw [hfold, hr5, hc5]
        simp only [List.map_cons, List.sum_cons]
        ring

/- ============================================================ -/
/- C9: portfolio continuity across records and cycles.          -/
/- ============================================================ -/

/-- C9: the record sequence is portfolio-continuous: each record's
`portfolio_before` is the previous record's `portfolio_after` (0 for the
first record) plus exactly the loan principal of the cycles whose first year
is that record (including intervening zero-duration cycles); and the total
injected money `final_portfolio - final_net_gains` is the sum over cycles of
repayments and contributions only — loan principal never enters it. -/
theorem portfolio_continuity (cycles : List Cycle) (a : ℝ) (s : ℕ) :
    (∀ i, i < (simDetails cycles a s).length →
        fieldAt YearRecord.portfolio_before (simDetails cycles a s) i =
          (if i = 0 then 0
           else fieldAt YearRecord.portfolio_after (simDetails cycles a s) (i - 1))
            + injectedAt cycles i) ∧
    simFinalPortfolio cycles a s - simFinalNetGains cycles a s =
      (cycles.map cycleInjected).sum := by
  obtain ⟨D, h1, h2, h3, h4, h5⟩ :=
    foldl_spec (annual_rate2mensual_rate a) cycles (initState s)
  have hd : simDetails cycles a s = D := by
    simp only [simDetails, simulate_multi_cycle_strategy_detailed]
    rw [h1]
    simp [initState]
  constructor
  · intro i hi
    rw [hd] at hi ⊢
    have hi' : i < totLen cycles := by omega
    have h := h3 i hi'
    rw [h]
    simp [initState]
  · show (List.foldl (runCycle (annual_rate2mensual_rate a)) (initState s)
          cycles).total_portfolio -
        ((List.foldl (runCycle (annual_rate2mensual_rate a)) (initState s)
          cycles).total_portfolio -
         (List.foldl (runCycle (annual_rate2mensual_rate a)) (initState s)
          cycles).total_external_investment) = _
    rw [h5]
    simp [initState]

/-- Witness for C9 at the empty strategy. -/
theorem portfolio_continuity_witness :
    simFinalPortfolio [] 0 30 - simFinalNetGains [] 0 30 =
      (([] : List Cycle).map cycleInjected).sum :=
  (portfolio_continuity [] 0 30).2

/- ============================================================ -/
/- C4: out-of-pocket totals of a cycle and of its DCA mirror.   -/
/- ============================================================ -/

/-- C4 (amended): over its simulated years every cycle injects out of pocket
exactly `12 * loan_repayment_years * monthly_repayment +
12 * contribution_years * monthly_contribution`, and its DCA mirror injects
`12 * max(loan_repayment_years, contribution_years) * monthly_repayment` —
both unconditionally; the two totals coincide if and only if
`contribution_years * monthly_contribution =
(max(loan_repayment_years, contribution_years) - loan_repayment_years) *
monthly_repayment` — in particular for pure loan cycles with no
contribution — but not for every cycle. -/
theorem cycle_injection_totals (c : Cycle) (m : ℝ) (st st' : SimState) :
    (runCycle m st c).total_external_investment - st.total_external_investment =
      12 * (c.loan_repayment_years : ℝ) * c.m_repayment
        + 12 * (c.contribution_years : ℝ) * c.monthly_contribution ∧
    (runCycle m st' (dcaMirror c)).total_external_investment
        - st'.total_external_investment =
      12 * ((max c.loan_repayment_years c.contribution_years : ℕ) : ℝ)
        * c.m_repayment ∧
    ((runCycle m st c).total_external_investment - st.total_external_investment =
        (runCycle m st' (dcaMirror c)).total_external_investment
          - st'.total_external_investment ↔
      (c.contribution_years : ℝ) * c.monthly_contribution =
        ((max c.loan_repayment_years c.contribution_years
            - c.loan_repayment_years : ℕ) : ℝ) * c.m_repayment) := by
  obtain ⟨D1, -, -, -, -, -, h1⟩ := runCycle_spec c m st
  obtain ⟨D2, -, -, -, -, -, h2⟩ := runCycle_spec (dcaMirror c) m st'
  have e1 : (runCycle m st c).total_external_investment
      - st.total_external_investment = cycleInjected c := by
    rw [h1]; ring
  have e2 : (runCycle m st' (dcaMirror c)).total_external_investment
      - st'.total_external_investment = cycleInjected (dcaMirror c) := by
    rw [h2]; ring
  have e3 : cycleInjected (dcaMirror c) =
      12 * ((max c.loan_repayment_years c.contribution_years : ℕ) : ℝ)
        * c.m_repayment := by
    unfold cycleInjected dcaMirror
    norm_num
  have hcast : ((max c.loan_repayment_years c.contribution_years
      - c.loan_repayment_years : ℕ) : ℝ) =
      ((max c.loan_repayment_years c.contribution_years : ℕ) : ℝ)
        - (c.loan_repayment_years : ℝ) :=
    Nat.cast_sub (le_max_left _ _)
  refine ⟨by rw [e1]; unfold cycleInjected; ring, by rw [e2, e3], ?_, ?_⟩
  · intro heq
    rw [e1, e2, e3] at heq
    unfold cycleInjected at heq
    rw [hcast]
    linear_combination heq / 12
  · intro h
    rw [hcast] at h
    rw [e1, e2, e3]
    unfold cycleInjected
    linear_combination 12 * h

/-- Witness for C4 at a pure loan cycle (120 borrowed at rate 0 over 1 year,
no contribution): its balance condition holds concretely and the theorem's
equivalence then forces the injected totals of the cycle and its mirror to
agree. -/
theorem cycle_injection_totals_witness :
    (((add_cycle 120 0 1 0 0).contribution_years : ℝ)
        * (add_cycle 120 0 1 0 0).monthly_contribution =
      ((max (add_cycle 120 0 1 0 0).loan_repayment_years
            (add_cycle 120 0 1 0 0).contribution_years
          - (add_cycle 120 0 1 0 0).loan_repayment_years : ℕ) : ℝ)
        * (add_cycle 120 0 1 0 0).m_repayment) ∧
    (runCycle 0 (initState 30) (add_cycle 120 0 1 0 0)).total_external_investment
        - (initState 30).total_external_investment =
      12 * ((add_cycle 120 0 1 0 0).loan_repayment_years : ℝ)
          * (add_cycle 120 0 1 0 0).m_repayment
        + 12 * ((add_cycle 120 0 1 0 0).contribution_years : ℝ)
          * (add_cycle 120 0 1 0 0).monthly_contribution ∧
    (runCycle 0 (initState 30) (add_cycle 120 0 1 0 0)).total_external_investment
        - (initState 30).total_external_investment =
      (runCycle 0 (initState 30)
          (dcaMirror (add_cycle 120 0 1 0 0))).total_external_investment
        - (initState 30).total_external_investment :=
  ⟨by simp [add_cycle],
   (cycle_injection_totals (add_cycle 120 0 1 0 0) 0
     (initState 30) (initState 30)).1,
   (cycle_injection_totals (add_cycle 120 0 1 0 0) 0
     (initState 30) (initState 30)).2.2.mpr (by simp [add_cycle])⟩

theorem monthly_repayment_120_0_1 : monthly_repayment 120 0 1 = 10 := by
  have h12 : pyInt ((1 : ℝ) * 12) = 12 := by
    unfold pyInt
    rw [if_pos (by norm_num), show (1 : ℝ) * 12 = ((12 : ℤ) : ℝ) by norm_num,
      Int.floor_intCast]
  simp only [monthly_repayment, annual_rate2mensual_rate_zero, h12]
  norm_num

theorem simDetails_singleton_oop (c : Cycle) (a : ℝ) :
    (simDetails [c] a 30).map YearRecord.out_of_pocket_year =
      (List.range (cycleLen c)).map (oopYear c) := by
  obtain ⟨D, h1, h2, h3, -, -, -⟩ :=
    runCycle_spec c (annual_rate2mensual_rate a) (initState 30)
  have hd : simDetails [c] a 30 = D := by
    have e : simDetails [c] a 30 =
        (List.foldl (runCycle (annual_rate2mensual_rate a)) (initState 30)
          [c]).annual_details := rfl
    rw [e, List.foldl_cons, List.foldl_nil, h1]
    simp [initState]
  rw [hd, h3]

/-- Counterexample to C4 as stated: for the cycle (loan 120 at rate 0 over
1 year, plus a contribution of 100 per month for 1 year) the cycle injects
12*(10+100) = 1320 out of pocket, while its DCA mirror injects only
12*10 = 120: the totals are not equal for every Strategy. -/
theorem cycle_injection_counterexample :
    ((simDetails [add_cycle 120 0 1 100 1] 0 30).map
        YearRecord.out_of_pocket_year).sum ≠
      ((simDetails (build_dca_cycles_from_lumpsum [add_cycle 120 0 1 100 1])
          0 30).map YearRecord.out_of_pocket_year).sum := by
  have hA : ((simDetails [add_cycle 120 0 1 100 1] 0 30).map
      YearRecord.out_of_pocket_year).sum = 1320 := by
    rw [simDetails_singleton_oop (add_cycle 120 0 1 100 1) 0]
    norm_num [cycleLen, add_cycle, oopYear, List.range_succ, List.range_zero,
      monthly_repayment_120_0_1]
  have hbd : build_dca_cycles_from_lumpsum [add_cycle 120 0 1 100 1] =
      [dcaMirror (add_cycle 120 0 1 100 1)] := rfl
  have hB : ((simDetails (build_dca_cycles_from_lumpsum
      [add_cycle 120 0 1 100 1]) 0 30).map YearRecord.out_of_pocket_year).sum
      = 120 := by
    rw [hbd, simDetails_singleton_oop (dcaMirror (add_cycle 120 0 1 100 1)) 0]
    norm_num [cycleLen, dcaMirror, add_cycle, oopYear, List.range_succ, List.range_zero,
      monthly_repayment_120_0_1]
  rw [hA, hB]
  norm_num

/- ============================================================ -/
/- C2: additivity of the net-gains column.                      -/
/- ============================================================ -/

/-- Invariant threaded through the simulation for the net-gains chain: the
recorded column is additive so far, and the last record's cumulative net gains
agree with the running state. -/
def InvNG (st : SimState) : Prop :=
  chainNG st.annual_details ∧
  (st.annual_details = [] ∨
    fieldAt YearRecord.net_gains_end_of_year st.annual_details
        (st.annual_details.length - 1) =
      st.total_portfolio - st.total_external_investment)

theorem InvNG_yearStep (c : Cycle) (m : ℝ) (y : ℕ) (st : SimState)
    (h : InvNG st) : InvNG (yearStep c m y st) := by
  obtain ⟨hch, hlast⟩ := h
  constructor
  · intro i hi
    rw [yearStep_details] at hi
    simp only [List.length_append, List.length_cons, List.length_nil] at hi
    rw [yearStep_details]
    rcases Nat.lt_or_ge (i + 1) st.annual_details.length with hlt | hge
    · rw [fieldAt_append_left _ _ _ _ hlt,
        fieldAt_append_left _ _ _ _ (by omega),
        fieldAt_append_left _ _ _ _ hlt]
      exact hch i hlt
    · have hi1 : i + 1 = st.annual_details.length := by omega
      have hlen0 : st.annual_details ≠ [] := by
        intro hnil
        rw [hnil] at hi1
        simp at hi1
      rcases hlast with hnil | hng
      · exact absurd hnil hlen0
      · have e1 := fieldAt_concat_self YearRecord.net_gains_end_of_year
          st.annual_details (yearRec c m y st)
        have e2 := fieldAt_concat_self YearRecord.roi_year
          st.annual_details (yearRec c m y st)
        rw [hi1, e1, e2,
          fieldAt_append_left _ _ _ _
            (show i < st.annual_details.length by omega),
          show i = st.annual_details.length - 1 by omega, hng,
          yearRec_ng, yearRec_roi]
        ring
  · right
    rw [yearStep_details]
    have e1 := fieldAt_concat_self YearRecord.net_gains_end_of_year
      st.annual_details (yearRec c m y st)
    have hlen : (st.annual_details ++ [yearRec c m y st]).length - 1 =
        st.annual_details.length := by simp
    rw [hlen, e1, yearRec_ng, yearStep_portfolio, yearStep_tei]

theorem InvNG_runYears (c : Cycle) (m : ℝ) (n : ℕ) (st : SimState)
    (h : InvNG st) : InvNG (runYears c m n st) := by
  induction n with
  | zero => exact h
  | succ n ih => exact InvNG_yearStep c m n _ ih

theorem InvNG_empty (st : SimState) (h : st.annual_details = []) : InvNG st := by
  constructor
  · intro i hi
    rw [h] at hi
    simp at hi
  · exact Or.inl h

theorem InvNG_runCycle (c : Cycle) (m : ℝ) (st : SimState)
    (h : c.loan_amount = 0 ∨ st.annual_details = []) (hst : InvNG st) :
    InvNG (runCycle m st c) := by
  rcases h with h0 | h0
  · apply InvNG_runYears
    have e : st.total_portfolio + c.loan_amount = st.total_portfolio := by
      rw [h0]; ring
    rw [e]
    exact hst
  · apply InvNG_runYears
    exact InvNG_empty _ h0

theorem InvNG_foldl (m : ℝ) :
    ∀ (cycles : List Cycle) (st : SimState),
      (∀ c ∈ cycles, c.loan_amount = 0) → InvNG st →
      InvNG (List.foldl (runCycle m) st cycles) := by
  intro cycles
  induction cycles with
  | nil => intro st _ h; exact h
  | cons c rest ih =>
      intro st hc h
      exact ih (runCycle m st c)
        (fun c' hc' => hc c' (List.mem_cons_of_mem _ hc'))
        (InvNG_runCycle c m st (Or.inl (hc c (List.mem_cons_self c rest))) h)

/-- C2 (amended): provided no loan principal is injected strictly between two
records — every cycle after the first has `loan_amount = 0` — the net-gains
column is additive: `net_gains_end_of_year[i] = net_gains_end_of_year[i-1] +
roi_year[i]` for every `i ≥ 1`, across the whole record sequence.  At a cycle
boundary where the new cycle borrows a nonzero loan the identity fails (the
gap equals the injected principal); see the counterexample. -/
theorem net_gains_additivity (cycles : List Cycle) (a : ℝ) (s : ℕ)
    (h : ∀ c ∈ cycles.tail, c.loan_amount = 0) :
    chainNG (simDetails cycles a s) := by
  have hd : simDetails cycles a s =
      (List.foldl (runCycle (annual_rate2mensual_rate a)) (initState s)
        cycles).annual_details := rfl
  rw [hd]
  cases cycles with
  | nil =>
      intro i hi
      simp [initState] at hi
  | cons c rest =>
      have h1 : InvNG (runCycle (annual_rate2mensual_rate a) (initState s) c) :=
        InvNG_runCycle c _ (initState s) (Or.inr rfl) (InvNG_empty _ rfl)
      have h2 : InvNG (List.foldl (runCycle (annual_rate2mensual_rate a))
          (runCycle (annual_rate2mensual_rate a) (initState s) c) rest) :=
        InvNG_foldl _ rest _ h h1
      exact h2.1

theorem runCycle_loan100_eval :
    runCycle 0 (initState 30) (add_cycle 100 0 0 0 1) =
      ⟨100, 0, 31, [31], [100], [⟨1, 31, 100, 0, 100, 0, 0, 100⟩]⟩ := by
  have hmA : monthStep (add_cycle 100 0 0 0 1) 0 0 (100, 0) = (100, 0) := by
    rw [monthStep_eq]
    norm_num [add_cycle]
  have hitA : (monthStep (add_cycle 100 0 0 0 1) 0 0)^[12] (100, 0) = (100, 0) :=
    Function.iterate_fixed hmA 12
  have hload : (add_cycle 100 0 0 0 1).loan_amount = 100 := rfl
  show yearStep (add_cycle 100 0 0 0 1) 0 0
    { initState 30 with total_portfolio :=
        (initState 30).total_portfolio + (add_cycle 100 0 0 0 1).loan_amount } = _
  simp only [yearStep, initState, hload, zero_add, add_zero, hitA]
  norm_num

theorem runCycle_free_after_loan_eval :
    runCycle 0 ⟨100, 0, 31, [31], [100], [⟨1, 31, 100, 0, 100, 0, 0, 100⟩]⟩
      (add_cycle 0 0 0 0 1) =
      ⟨100, 0, 32, [31, 32], [100, 100],
        [⟨1, 31, 100, 0, 100, 0, 0, 100⟩, ⟨2, 32, 100, 0, 100, 0, 0, 100⟩]⟩ := by
  have hmB : monthStep (add_cycle 0 0 0 0 1) 0 0 (100, 0) = (100, 0) := by
    rw [monthStep_eq]
    norm_num [add_cycle]
  have hitB : (monthStep (add_cycle 0 0 0 0 1) 0 0)^[12] (100, 0) = (100, 0) :=
    Function.iterate_fixed hmB 12
  have hload : (add_cycle 0 0 0 0 1).loan_amount = 0 := rfl
  show yearStep (add_cycle 0 0 0 0 1) 0 0
    { (⟨100, 0, 31, [31], [100], [⟨1, 31, 100, 0, 100, 0, 0, 100⟩]⟩ : SimState) with
        total_portfolio := (100 : ℝ) + (add_cycle 0 0 0 0 1).loan_amount } = _
  simp only [yearStep, hload, zero_add, add_zero, hitB]
  norm_num

theorem simDetails_loan_then_free_eval :
    simDetails [add_cycle 100 0 0 0 1, add_cycle 0 0 0 0 1] 0 30 =
      [⟨1, 31, 100, 0, 100, 0, 0, 100⟩, ⟨2, 32, 100, 0, 100, 0, 0, 100⟩] := by
  have e : simDetails [add_cycle 100 0 0 0 1, add_cycle 0 0 0 0 1] 0 30 =
      (List.foldl (runCycle (annual_rate2mensual_rate 0)) (initState 30)
        [add_cycle 100 0 0 0 1, add_cycle 0 0 0 0 1]).annual_details := rfl
  rw [e, annual_rate2mensual_rate_zero, List.foldl_cons, List.foldl_cons,
    List.foldl_nil, runCycle_loan100_eval, runCycle_free_after_loan_eval]

/-- Witness for C2 at a two-cycle strategy whose first cycle borrows 100 and
whose tail cycle is loan-free: the hypothesis holds non-vacuously and the
record sequence has two entries with net gains 100 and 100 and yearly ROI 0,
so the chain identity 100 = 100 + 0 is checked at a real index. -/
theorem net_gains_additivity_witness :
    (∀ c ∈ (List.tail [add_cycle 100 0 0 0 1, add_cycle 0 0 0 0 1]),
        c.loan_amount = 0) ∧
    (simDetails [add_cycle 100 0 0 0 1, add_cycle 0 0 0 0 1] 0 30).length = 2 ∧
    chainNG (simDetails [add_cycle 100 0 0 0 1, add_cycle 0 0 0 0 1] 0 30) := by
  have hyp : ∀ c ∈ (List.tail [add_cycle 100 0 0 0 1, add_cycle 0 0 0 0 1]),
      c.loan_amount = 0 := by
    simp [add_cycle]
  exact ⟨hyp, by simp [simDetails_loan_then_free_eval],
    net_gains_additivity [add_cycle 100 0 0 0 1, add_cycle 0 0 0 0 1] 0 30 hyp⟩

/-- Counterexample to C2 as stated: with a first one-year cycle with no money
at all and a second one-year cycle that borrows 100 at rate 0, the records
are (ng, roi) = (0, 0) then (100, 0): `net_gains_end_of_year[1] = 100` but
`net_gains_end_of_year[0] + roi_year[1] = 0` — the identity fails at the
cycle boundary where loan principal is injected. -/
theorem net_gains_additivity_counterexample :
    ¬ chainNG (simDetails [add_cycle 0 0 0 0 1, add_cycle 100 0 0 0 1] 0 30) := by
  have hm0 : monthStep (add_cycle 0 0 0 0 1) 0 0 (0, 0) = (0, 0) := by
    rw [monthStep_eq]
    norm_num [add_cycle]
  have hmB : monthStep (add_cycle 100 0 0 0 1) 0 0 (100, 0) = (100, 0) := by
    rw [monthStep_eq]
    norm_num [add_cycle]
  have hit1 : (monthStep (add_cycle 0 0 0 0 1) 0 0)^[12] (0, 0) = (0, 0) :=
    Function.iterate_fixed hm0 12
  have hit2 : (monthStep (add_cycle 100 0 0 0 1) 0 0)^[12] (100, 0) = (100, 0) :=
    Function.iterate_fixed hmB 12
  have h1 : runCycle 0 (initState 30) (add_cycle 0 0 0 0 1) =
      ⟨0, 0, 31, [31], [0], [⟨1, 31, 0, 0, 0, 0, 0, 0⟩]⟩ := by
    have hload : (add_cycle 0 0 0 0 1).loan_amount = 0 := rfl
    show yearStep (add_cycle 0 0 0 0 1) 0 0
      { initState 30 with total_portfolio :=
          (initState 30).total_portfolio + (add_cycle 0 0 0 0 1).loan_amount } = _
    simp only [yearStep, initState, hload, zero_add, add_zero, hit1]
    norm_num
  have h2 : runCycle 0 ⟨0, 0, 31, [31], [0], [⟨1, 31, 0, 0, 0, 0, 0, 0⟩]⟩
      (add_cycle 100 0 0 0 1) =
      ⟨100, 0, 32, [31, 32], [0, 100],
        [⟨1, 31, 0, 0, 0, 0, 0, 0⟩, ⟨2, 32, 100, 0, 100, 0, 0, 100⟩]⟩ := by
    have hload : (add_cycle 100 0 0 0 1).loan_amount = 100 := rfl
    show yearStep (add_cycle 100 0 0 0 1) 0 0
      { (⟨0, 0, 31, [31], [0], [⟨1, 31, 0, 0, 0, 0, 0, 0⟩]⟩ : SimState) with
          total_portfolio := (0 : ℝ) + (add_cycle 100 0 0 0 1).loan_amount } = _
    simp only [yearStep, hload, zero_add, add_zero, hit2]
    norm_num
  have hd : simDetails [add_cycle 0 0 0 0 1, add_cycle 100 0 0 0 1] 0 30 =
      [⟨1, 31, 0, 0, 0, 0, 0, 0⟩, ⟨2, 32, 100, 0, 100, 0, 0, 100⟩] := by
    have e : simDetails [add_cycle 0 0 0 0 1, add_cycle 100 0 0 0 1] 0 30 =
        (List.foldl (runCycle (annual_rate2mensual_rate 0)) (initState 30)
          [add_cycle 0 0 0 0 1, add_cycle 100 0 0 0 1]).annual_details := rfl
    rw [e, annual_rate2mensual_rate_zero, List.foldl_cons, List.foldl_cons,
      List.foldl_nil, h1, h2]
  intro hch
  have hb : 0 + 1 < (simDetails [add_cycle 0 0 0 0 1, add_cycle 100 0 0 0 1]
      0 30).length := by
    rw [hd]
    norm_num
  have h := hch 0 hb
  rw [hd] at h
  simp only [fieldAt, List.map_cons, List.map_nil] at h
  norm_num [List.getD] at h

/- ============================================================ -/
/- C6: zero-duration cycles.                                    -/
/- ============================================================ -/

theorem runCycle_zero_len (c : Cycle) (m : ℝ) (st : SimState)
    (h : max c.loan_repayment_years c.contribution_years = 0) :
    runCycle m st c =
      { st with total_portfolio := st.total_portfolio + c.loan_amount } := by
  unfold runCycle
  rw [h]
  rfl

/-- C6: a cycle with `loan_repayment_years = contribution_years = 0` produces
no YearRecords yet adds its `loan_amount` to the running portfolio, with no
growth applied to it during the cycle; in particular the single cycle
(loan 1000, rate 0, no repayment years, no contribution) simulates, at any
annual investment rate and start age, to empty sequences with
`final_portfolio = 1000` untouched by growth. -/
theorem zero_duration_cycle (c : Cycle) (h1 : c.loan_repayment_years = 0)
    (h2 : c.contribution_years = 0) (m : ℝ) (st : SimState) (a : ℝ) (s : ℕ) :
    runCycle m st c =
      { st with total_portfolio := st.total_portfolio + c.loan_amount } ∧
    simulate_multi_cycle_strategy_detailed [add_cycle 1000 0 0 0 0] a s =
      ([], [], 1000, 1000, []) := by
  constructor
  · exact runCycle_zero_len c m st (by rw [h1, h2]; rfl)
  · have h3 := runCycle_zero_len (add_cycle 1000 0 0 0 0)
      (annual_rate2mensual_rate a) (initState s) rfl
    have h4 : List.foldl (runCycle (annual_rate2mensual_rate a)) (initState s)
        [add_cycle 1000 0 0 0 0] =
        { initState s with total_portfolio :=
            (initState s).total_portfolio + (add_cycle 1000 0 0 0 0).loan_amount } := by
      rw [List.foldl_cons, List.foldl_nil, h3]
    show ((List.foldl (runCycle (annual_rate2mensual_rate a)) (initState s)
        [add_cycle 1000 0 0 0 0]).ages, _, _, _, _) = _
    rw [h4]
    have hload : (add_cycle 1000 0 0 0 0).loan_amount = 1000 := rfl
    simp [initState, hload]

/-- Witness for C6 at the concrete cycle (1000, 0, 0, 0, 0) and rate 0. -/
theorem zero_duration_cycle_witness :
    runCycle 0 (initState 30) (add_cycle 1000 0 0 0 0) =
      { initState 30 with total_portfolio :=
          (initState 30).total_portfolio + (add_cycle 1000 0 0 0 0).loan_amount } ∧
    simulate_multi_cycle_strategy_detailed [add_cycle 1000 0 0 0 0] 0 30 =
      ([], [], 1000, 1000, []) :=
  zero_duration_cycle (add_cycle 1000 0 0 0 0) rfl rfl 0 (initState 30) 0 30

/- ============================================================ -/
/- C10: non-negativity of the simulated quantities.             -/
/- ============================================================ -/

theorem annual_rate2mensual_rate_nonneg (a : ℝ) (ha : 0 ≤ a) :
    0 ≤ annual_rate2mensual_rate a := by
  unfold annual_rate2mensual_rate
  have h1 : (1 : ℝ) ≤ (1 + a) ^ ((1 : ℝ) / 12) := by
    calc (1 : ℝ) = 1 ^ ((1 : ℝ) / 12) := (Real.one_rpow _).symm
    _ ≤ (1 + a) ^ ((1 : ℝ) / 12) :=
        Real.rpow_le_rpow zero_le_one (by linarith) (by norm_num)
  linarith

theorem monthStep_nonneg (c : Cycle) (m : ℝ) (y : ℕ) (s : ℝ × ℝ)
    (hmc : 0 ≤ c.monthly_contribution) (hmr : 0 ≤ c.m_repayment) (hm : 0 ≤ m)
    (hp : 0 ≤ s.1) (ho : 0 ≤ s.2) :
    0 ≤ (monthStep c m y s).1 ∧ 0 ≤ (monthStep c m y s).2 := by
  rw [monthStep_eq]
  dsimp only
  constructor
  · have hsum : (0 : ℝ) ≤ s.1 +
        (if y < c.contribution_years then c.monthly_contribution else 0) := by
      split_ifs <;> linarith
    have h1m : (0 : ℝ) ≤ 1 + m := by linarith
    exact mul_nonneg hsum h1m
  · split_ifs <;> linarith

theorem monthStep_iterate_nonneg (c : Cycle) (m : ℝ) (y : ℕ)
    (hmc : 0 ≤ c.monthly_contribution) (hmr : 0 ≤ c.m_repayment) (hm : 0 ≤ m) :
    ∀ (j : ℕ) (s : ℝ × ℝ), 0 ≤ s.1 → 0 ≤ s.2 →
      0 ≤ ((monthStep c m y)^[j] s).1 ∧ 0 ≤ ((monthStep c m y)^[j] s).2 := by
  intro j
  induction j with
  | zero => intro s hp ho; simpa using ⟨hp, ho⟩
  | succ n ih =>
      intro s hp ho
      rw [Function.iterate_succ_apply]
      obtain ⟨h1, h2⟩ := monthStep_nonneg c m y s hmc hmr hm hp ho
      exact ih (monthStep c m y s) h1 h2

/-- Non-negativity invariant on the simulator state. -/
def NNState (st : SimState) : Prop :=
  0 ≤ st.total_portfolio ∧ 0 ≤ st.total_external_investment ∧
  ∀ r ∈ st.annual_details,
    0 ≤ r.out_of_pocket_year ∧ 0 ≤ r.portfolio_before ∧ 0 ≤ r.portfolio_after

theorem NNState_yearStep (c : Cycle) (m : ℝ) (y : ℕ) (st : SimState)
    (hmc : 0 ≤ c.monthly_contribution) (hmr : 0 ≤ c.m_repayment) (hm : 0 ≤ m)
    (h : NNState st) : NNState (yearStep c m y st) := by
  obtain ⟨hp, ht, hr⟩ := h
  obtain ⟨h1, h2⟩ := monthStep_iterate_nonneg c m y hmc hmr hm 12
    (st.total_portfolio, 0) hp le_rfl
  refine ⟨?_, ?_, ?_⟩
  · rw [yearStep_portfolio]
    exact h1
  · rw [yearStep_tei]
    linarith
  · intro r hrm
    rw [yearStep_details] at hrm
    rcases List.mem_append.mp hrm with hold | hnew
    · exact hr r hold
    · have he : r = yearRec c m y st := by simpa using hnew
      subst he
      exact ⟨h2, hp, h1⟩

theorem NNState_runYears (c : Cycle) (m : ℝ)
    (hmc : 0 ≤ c.monthly_contribution) (hmr : 0 ≤ c.m_repayment) (hm : 0 ≤ m)
    (n : ℕ) (st : SimState) (h : NNState st) : NNState (runYears c m n st) := by
  induction n with
  | zero => exact h
  | succ n ih => exact NNState_yearStep c m n _ hmc hmr hm ih

theorem NNState_runCycle (c : Cycle) (m : ℝ) (st : SimState)
    (hc : 0 ≤ c.loan_amount ∧ 0 ≤ c.monthly_contribution ∧ 0 ≤ c.m_repayment)
    (hm : 0 ≤ m) (h : NNState st) : NNState (runCycle m st c) := by
  apply NNState_runYears c m hc.2.1 hc.2.2 hm
  exact ⟨add_nonneg h.1 hc.1, h.2.1, h.2.2⟩

theorem NNState_foldl (m : ℝ) (hm : 0 ≤ m) :
    ∀ (cycles : List Cycle) (st : SimState),
      (∀ c ∈ cycles,
        0 ≤ c.loan_amount ∧ 0 ≤ c.monthly_contribution ∧ 0 ≤ c.m_repayment) →
      NNState st → NNState (List.foldl (runCycle m) st cycles) := by
  intro cycles
  induction cycles with
  | nil => intro st _ h; exact h
  | cons c rest ih =>
      intro st hc h
      exact ih (runCycle m st c)
        (fun c' hc' => hc c' (List.mem_cons_of_mem _ hc'))
        (NNState_runCycle c m st (hc c (List.mem_cons_self c rest)) hm h)

/-- C10: if every cycle has non-negative `loan_amount`,
`monthly_contribution` and `m_repayment` and the annual investment rate is
non-negative, then each monthly step preserves non-negativity of the running
portfolio and of the running yearly out-of-pocket total, every record has
non-negative `out_of_pocket_year`, `portfolio_before` and `portfolio_after`,
the final portfolio is non-negative, and so is the cumulative injected total
`final_portfolio - final_net_gains`. -/
theorem nonneg_invariant (cycles : List Cycle) (a : ℝ) (s : ℕ)
    (hc : ∀ c ∈ cycles,
      0 ≤ c.loan_amount ∧ 0 ≤ c.monthly_contribution ∧ 0 ≤ c.m_repayment)
    (ha : 0 ≤ a) :
    (∀ c ∈ cycles, ∀ (y : ℕ) (p oop : ℝ), 0 ≤ p → 0 ≤ oop →
        0 ≤ (monthStep c (annual_rate2mensual_rate a) y (p, oop)).1 ∧
        0 ≤ (monthStep c (annual_rate2mensual_rate a) y (p, oop)).2) ∧
    (∀ r ∈ simDetails cycles a s,
        0 ≤ r.out_of_pocket_year ∧ 0 ≤ r.portfolio_before ∧
        0 ≤ r.portfolio_after) ∧
    0 ≤ simFinalPortfolio cycles a s ∧
    0 ≤ simFinalPortfolio cycles a s - simFinalNetGains cycles a s := by
  have hm : 0 ≤ annual_rate2mensual_rate a := annual_rate2mensual_rate_nonneg a ha
  have hN : NNState (List.foldl (runCycle (annual_rate2mensual_rate a))
      (initState s) cycles) := by
    apply NNState_foldl _ hm cycles (initState s) hc
    refine ⟨le_rfl, le_rfl, ?_⟩
    intro r hr
    simp [initState] at hr
  refine ⟨?_, ?_, ?_, ?_⟩
  · intro c hcm y p oop hp ho
    exact monthStep_nonneg c (annual_rate2mensual_rate a) y (p, oop)
      (hc c hcm).2.1 (hc c hcm).2.2 hm hp ho
  · intro r hr
    exact hN.2.2 r hr
  · exact hN.1
  · have e : simFinalPortfolio cycles a s - simFinalNetGains cycles a s =
        (List.foldl (runCycle (annual_rate2mensual_rate a)) (initState s)
          cycles).total_external_investment := by
      show (List.foldl (runCycle (annual_rate2mensual_rate a)) (initState s)
            cycles).total_portfolio -
          ((List.foldl (runCycle (annual_rate2mensual_rate a)) (initState s)
            cycles).total_portfolio -
           (List.foldl (runCycle (annual_rate2mensual_rate a)) (initState s)
            cycles).total_external_investment) = _
      ring
    rw [e]
    exact hN.2.1

theorem simFinalPortfolio_loan100_eval :
    simFinalPortfolio [add_cycle 100 0 0 0 1] 0 30 = 100 := by
  have e : simFinalPortfolio [add_cycle 100 0 0 0 1] 0 30 =
      (List.foldl (runCycle (annual_rate2mensual_rate 0)) (initState 30)
        [add_cycle 100 0 0 0 1]).total_portfolio := rfl
  rw [e, annual_rate2mensual_rate_zero, List.foldl_cons, List.foldl_nil,
    runCycle_loan100_eval]

/-- Witness for C10 at the one-cycle strategy that borrows 100 over one
contribution-free year: the per-cycle hypothesis is discharged at a cycle
with a strictly positive loan, and the theorem's conclusions apply to a
simulation whose final portfolio is the concrete value 100 and whose record
list is non-empty. -/
theorem nonneg_invariant_witness :
    (∀ c ∈ [add_cycle 100 0 0 0 1],
        0 ≤ c.loan_amount ∧ 0 ≤ c.monthly_contribution ∧ 0 ≤ c.m_repayment) ∧
    simFinalPortfolio [add_cycle 100 0 0 0 1] 0 30 = 100 ∧
    (∀ r ∈ simDetails [add_cycle 100 0 0 0 1] 0 30,
        0 ≤ r.out_of_pocket_year ∧ 0 ≤ r.portfolio_before ∧
        0 ≤ r.portfolio_after) ∧
    0 ≤ simFinalPortfolio [add_cycle 100 0 0 0 1] 0 30 := by
  have hyp : ∀ c ∈ [add_cycle 100 0 0 0 1],
      0 ≤ c.loan_amount ∧ 0 ≤ c.monthly_contribution ∧ 0 ≤ c.m_repayment := by
    norm_num [add_cycle, monthly_repayment, pyInt]
  exact ⟨hyp, simFinalPortfolio_loan100_eval,
    (nonneg_invariant [add_cycle 100 0 0 0 1] 0 30 hyp le_rfl).2.1,
    (nonneg_invariant [add_cycle 100 0 0 0 1] 0 30 hyp le_rfl).2.2.1⟩

end Invest
